import Mathlib

/-! # ZenFlow icon generation: formal model

Shallow embedding of the two icon-generation scripts of this repository,
`Scripts/generate_app_icons.py` (namespace `AppIcons`) and
`generate_icons.py` (namespace `ZenIcons`): the size tables, the pixel
renderers and the writer loops.

Conventions of the embedding:
* Python float arithmetic is modelled exactly over `ℚ` (over `ℝ` where
  `math.sqrt` occurs); `int()` is truncation toward zero; float division
  by zero, which raises `ZeroDivisionError` in Python, is modelled by
  `Option`/`Except` failure values.
* A rendered image is a square grid of pixels; a pixel the script has not
  yet assigned holds `none`, so that full-coverage claims are statable.
* The rasterization of the imaging library (`draw.line`, `draw.ellipse`,
  alpha compositing of `paste`) is modelled by deterministic pixel
  predicates and a deterministic channel blend; every geometric parameter
  the scripts pass to the library is carried exactly.
-/

namespace ZenFlow

/-- Python `int()` on a float value: truncation toward zero. -/
def pyInt (q : ℚ) : ℤ := if 0 ≤ q then ⌊q⌋ else ⌈q⌉

/-- Python float division; `none` models a raised `ZeroDivisionError`. -/
def pyDiv (a b : ℚ) : Option ℚ := if b = 0 then none else some (a / b)

/-- An RGBA color with integer channels. -/
abbrev RGBA := ℤ × ℤ × ℤ × ℤ

/-- An in-memory pixel grid.  `px x y = none` marks a pixel the script has
not assigned yet. -/
structure Image where
  width : ℕ
  height : ℕ
  px : ℕ → ℕ → Option RGBA

/-- `Image.new((n, n))`: a fresh `n`-by-`n` grid with no pixel assigned. -/
def Image.new (n : ℕ) : Image := ⟨n, n, fun _ _ => none⟩

/-- Linear blend of one channel toward `b` by alpha `t` out of 255 (the
imaging library's alpha compositing, modelled). -/
def mixCh (a b t : ℤ) : ℤ := pyInt ((a : ℚ) + ((b : ℚ) - (a : ℚ)) * (t : ℚ) / 255)

/-- Alpha-blend the color `over` onto the color `under` (modelled). -/
def blend (under over : RGBA) : RGBA :=
  (mixCh under.1 over.1 over.2.2.2,
   mixCh under.2.1 over.2.1 over.2.2.2,
   mixCh under.2.2.1 over.2.2.1 over.2.2.2,
   under.2.2.2)

/-- Generic masked drawing step: every pixel selected by `mask` is assigned
`f x y oldValue`; every other pixel is untouched.  All drawing primitives
of the two scripts are instances of this step. -/
def Image.drawWith (img : Image) (mask : ℕ → ℕ → Bool)
    (f : ℕ → ℕ → Option RGBA → RGBA) : Image :=
  { img with px := fun a b => if mask a b then some (f a b (img.px a b)) else img.px a b }

/-- `img.putpixel((x, y), c)`. -/
def Image.putpixel (img : Image) (x y : ℕ) (c : RGBA) : Image :=
  img.drawWith (fun a b => decide (a = x) && decide (b = y)) (fun _ _ _ => c)

/-- `draw.line([(0, y), (size, y)], fill=c)`: the opaque fill assigns every
pixel of row `y`, clipped to the image width. -/
def Image.hline (img : Image) (y : ℕ) (c : RGBA) : Image :=
  img.drawWith (fun a b => decide (b = y) && decide (a < img.width)) (fun _ _ _ => c)

/-- Pixels of the filled ellipse inscribed in the bounding box of center
`(cx, cy)` and radius `r`, clipped to the image (library rasterization,
modelled as a disk predicate). -/
def diskMask (w h : ℕ) (cx cy r : ℚ) : ℕ → ℕ → Bool := fun a b =>
  decide (a < w) && decide (b < h) &&
  decide (((a : ℚ) - cx) ^ 2 + ((b : ℚ) - cy) ^ 2 ≤ r ^ 2)

/-- Pixels of an ellipse outline of stroke thickness `t` drawn inward from
radius `r` (library rasterization, modelled as a ring predicate). -/
def ringMask (w h : ℕ) (cx cy r t : ℚ) : ℕ → ℕ → Bool := fun a b =>
  decide (a < w) && decide (b < h) &&
  decide ((r - t) ^ 2 ≤ ((a : ℚ) - cx) ^ 2 + ((b : ℚ) - cy) ^ 2) &&
  decide (((a : ℚ) - cx) ^ 2 + ((b : ℚ) - cy) ^ 2 ≤ r ^ 2)

/-- `draw.ellipse(bbox, fill=c)` in replacement mode. -/
def Image.ellipseFill (img : Image) (cx cy r : ℚ) (c : RGBA) : Image :=
  img.drawWith (diskMask img.width img.height cx cy r) (fun _ _ _ => c)

/-- `draw.ellipse(bbox, outline=c, width=t)` in replacement mode. -/
def Image.ellipseOutlineW (img : Image) (cx cy r t : ℚ) (c : RGBA) : Image :=
  img.drawWith (ringMask img.width img.height cx cy r t) (fun _ _ _ => c)

/-- `draw.ellipse(bbox, outline=c)` on an `'RGBA'`-mode draw object:
a one-pixel outline alpha-blended onto the image. -/
def Image.ellipseOutlineBlend (img : Image) (cx cy r : ℚ) (c : RGBA) : Image :=
  img.drawWith (ringMask img.width img.height cx cy r 1)
    (fun _ _ o => blend (o.getD (0, 0, 0, 255)) c)

/-- `img.paste(over, (0, 0), over)`: alpha-composite `over` onto `img`
using `over` itself as the mask. -/
def Image.paste (img over : Image) : Image :=
  img.drawWith (fun a b => (over.px a b).isSome)
    (fun a b o => blend (o.getD (0, 0, 0, 255)) ((over.px a b).getD (0, 0, 0, 255)))

lemma Image.drawWith_width (img : Image) (mask : ℕ → ℕ → Bool)
    (f : ℕ → ℕ → Option RGBA → RGBA) : (img.drawWith mask f).width = img.width := rfl

lemma Image.drawWith_height (img : Image) (mask : ℕ → ℕ → Bool)
    (f : ℕ → ℕ → Option RGBA → RGBA) : (img.drawWith mask f).height = img.height := rfl

lemma Image.drawWith_isSome (img : Image) (mask : ℕ → ℕ → Bool)
    (f : ℕ → ℕ → Option RGBA → RGBA) (x y : ℕ) (h : (img.px x y).isSome) :
    ((img.drawWith mask f).px x y).isSome := by
  by_cases hm : mask x y <;> simp [Image.drawWith, hm, h]

namespace AppIcons

/-- Icon colors of `Scripts/generate_app_icons.py` (from ZenTheme). -/
def CALM_BLUE : ℤ × ℤ × ℤ := (89, 115, 217)

/-- `SERENE_PURPLE = (128, 89, 217)`. -/
def SERENE_PURPLE : ℤ × ℤ × ℤ := (128, 89, 217)

/-- `SOFT_PURPLE = (115, 89, 166)`. -/
def SOFT_PURPLE : ℤ × ℤ × ℤ := (115, 89, 166)

/-- `DEEP_INDIGO = (46, 38, 89)`. -/
def DEEP_INDIGO : ℤ × ℤ × ℤ := (46, 38, 89)

/-- `LIGHTER_INDIGO = (64, 56, 107)`. -/
def LIGHTER_INDIGO : ℤ × ℤ × ℤ := (64, 56, 107)

/-- The iOS icon size table `ICON_SIZES`: `(filename, pixel size)`. -/
def ICON_SIZES : List (String × ℕ) := [
  ("icon-20@2x.png", 40),
  ("icon-20@3x.png", 60),
  ("icon-29@2x.png", 58),
  ("icon-29@3x.png", 87),
  ("icon-40@2x.png", 80),
  ("icon-40@3x.png", 120),
  ("icon-60@2x.png", 120),
  ("icon-60@3x.png", 180),
  ("icon-20.png", 20),
  ("icon-20@2x-ipad.png", 40),
  ("icon-29.png", 29),
  ("icon-29@2x-ipad.png", 58),
  ("icon-40.png", 40),
  ("icon-40@2x-ipad.png", 80),
  ("icon-76.png", 76),
  ("icon-76@2x.png", 152),
  ("icon-83.5@2x.png", 167),
  ("icon-1024.png", 1024)]

/-- One record of the `images` list of the `Contents.json` template. -/
structure ManifestEntry where
  filename : String
  idiom : String
  scale : String
  size : String
deriving DecidableEq

/-- The `Contents.json` template `CONTENTS_JSON`. -/
structure Manifest where
  images : List ManifestEntry
  author : String
  version : ℤ

/-- The manifest template of `Scripts/generate_app_icons.py`. -/
def CONTENTS_JSON : Manifest where
  images := [
    ⟨"icon-20@2x.png", "iphone", "2x", "20x20"⟩,
    ⟨"icon-20@3x.png", "iphone", "3x", "20x20"⟩,
    ⟨"icon-29@2x.png", "iphone", "2x", "29x29"⟩,
    ⟨"icon-29@3x.png", "iphone", "3x", "29x29"⟩,
    ⟨"icon-40@2x.png", "iphone", "2x", "40x40"⟩,
    ⟨"icon-40@3x.png", "iphone", "3x", "40x40"⟩,
    ⟨"icon-60@2x.png", "iphone", "2x", "60x60"⟩,
    ⟨"icon-60@3x.png", "iphone", "3x", "60x60"⟩,
    ⟨"icon-20.png", "ipad", "1x", "20x20"⟩,
    ⟨"icon-20@2x-ipad.png", "ipad", "2x", "20x20"⟩,
    ⟨"icon-29.png", "ipad", "1x", "29x29"⟩,
    ⟨"icon-29@2x-ipad.png", "ipad", "2x", "29x29"⟩,
    ⟨"icon-40.png", "ipad", "1x", "40x40"⟩,
    ⟨"icon-40@2x-ipad.png", "ipad", "2x", "40x40"⟩,
    ⟨"icon-76.png", "ipad", "1x", "76x76"⟩,
    ⟨"icon-76@2x.png", "ipad", "2x", "76x76"⟩,
    ⟨"icon-83.5@2x.png", "ipad", "2x", "83.5x83.5"⟩,
    ⟨"icon-1024.png", "ios-marketing", "1x", "1024x1024"⟩]
  author := "xcode"
  version := 1

/-- Loop index list of `for i in range(steps)` inside
`create_radial_gradient`; empty whenever `steps` is zero or negative. -/
def gradRange (steps : ℤ) : List ℕ := List.range steps.toNat

/-- One iteration of the gradient loop of `create_radial_gradient`:
`progress = i / steps` (a `ZeroDivisionError` if `steps` were zero),
then radius and channel interpolation, then a filled ellipse. -/
def gradStep (cx cy sr er : ℚ) (sc ec : RGBA) (steps : ℤ) (img : Image) (i : ℕ) :
    Option Image := do
  let progress ← pyDiv (i : ℚ) ((steps : ℤ) : ℚ)
  let radius := sr + (er - sr) * progress
  let r := pyInt ((sc.1 : ℚ) + ((ec.1 : ℚ) - (sc.1 : ℚ)) * progress)
  let g := pyInt ((sc.2.1 : ℚ) + ((ec.2.1 : ℚ) - (sc.2.1 : ℚ)) * progress)
  let b := pyInt ((sc.2.2.1 : ℚ) + ((ec.2.2.1 : ℚ) - (sc.2.2.1 : ℚ)) * progress)
  let a := pyInt ((sc.2.2.2 : ℚ) + ((ec.2.2.2 : ℚ) - (sc.2.2.2 : ℚ)) * progress)
  some (img.ellipseFill cx cy radius (r, g, b, a))

/-- `create_radial_gradient(size, center, start_radius, end_radius,
start_color, end_color)`; all call sites pass 4-component colors. -/
def create_radial_gradient (size : ℕ) (cx cy sr er : ℚ) (sc ec : RGBA) : Option Image :=
  (gradRange (pyInt (er - sr))).foldlM
    (gradStep cx cy sr er sc ec (pyInt (er - sr))) (Image.new size)

/-- `scale = size / 1024.0`. -/
def scale (n : ℕ) : ℚ := (n : ℚ) / 1024

/-- Background color of row `y` in `draw_breathing_circles_icon`:
`progress = y / size` followed by per-channel linear interpolation from
`LIGHTER_INDIGO` to `DEEP_INDIGO`, truncated with `int()`. -/
def bgColor (n y : ℕ) : Option RGBA := do
  let progress ← pyDiv (y : ℚ) (n : ℚ)
  let r := pyInt ((LIGHTER_INDIGO.1 : ℚ) + ((DEEP_INDIGO.1 : ℚ) - (LIGHTER_INDIGO.1 : ℚ)) * progress)
  let g := pyInt ((LIGHTER_INDIGO.2.1 : ℚ) + ((DEEP_INDIGO.2.1 : ℚ) - (LIGHTER_INDIGO.2.1 : ℚ)) * progress)
  let b := pyInt ((LIGHTER_INDIGO.2.2 : ℚ) + ((DEEP_INDIGO.2.2 : ℚ) - (LIGHTER_INDIGO.2.2 : ℚ)) * progress)
  some (r, g, b, 255)

/-- The background pass of `draw_breathing_circles_icon`: one full-width
line per row `y` of `range(size)`. -/
def bgPass (n : ℕ) : Option Image :=
  (List.range n).foldlM (fun img y => (bgColor n y).map (Image.hline img y)) (Image.new n)

/-- Center coordinate `size // 2` as a rational. -/
def cn (n : ℕ) : ℚ := ((n / 2 : ℕ) : ℚ)

/-- The outer-glow gradient image. -/
def glow (n : ℕ) : Option Image :=
  create_radial_gradient n (cn n) (cn n)
    ((pyInt (100 * scale n) : ℤ) : ℚ) ((pyInt (300 * scale n) : ℤ) : ℚ)
    (SERENE_PURPLE.1, SERENE_PURPLE.2.1, SERENE_PURPLE.2.2, 76)
    (0, 0, 0, 0)

/-- The concentric-circle table `circles`: `(radius, width, color)`. -/
def circles (n : ℕ) : List (ℚ × ℚ × RGBA) := [
  (400 * scale n, 3 * scale n, (SOFT_PURPLE.1, SOFT_PURPLE.2.1, SOFT_PURPLE.2.2, 102)),
  (330 * scale n, 4 * scale n, (SOFT_PURPLE.1, SOFT_PURPLE.2.1, SOFT_PURPLE.2.2, 128)),
  (260 * scale n, 5 * scale n, (CALM_BLUE.1, CALM_BLUE.2.1, CALM_BLUE.2.2, 153)),
  (190 * scale n, 6 * scale n, (CALM_BLUE.1, CALM_BLUE.2.1, CALM_BLUE.2.2, 179)),
  (120 * scale n, 7 * scale n, (CALM_BLUE.1, CALM_BLUE.2.1, CALM_BLUE.2.2, 204))]

/-- Draw one concentric circle: `int(width)` one-pixel outlines of radius
`radius - i/2`, alpha-blended. -/
def drawCircle (n : ℕ) (img : Image) (c : ℚ × ℚ × RGBA) : Image :=
  (List.range (pyInt c.2.1).toNat).foldl
    (fun im i => im.ellipseOutlineBlend (cn n) (cn n) (c.1 - (i : ℚ) / 2) c.2.2) img

/-- `center_radius = int(40 * scale)`. -/
def center_radius (n : ℕ) : ℤ := pyInt (40 * scale n)

/-- The inner gradient stop table `gradient_steps`: `(radius, color)`. -/
def gradient_steps (n : ℕ) : List (ℚ × RGBA) := [
  (5 * scale n, (255, 255, 255, 230)),
  (25 * scale n, (CALM_BLUE.1, CALM_BLUE.2.1, CALM_BLUE.2.2, 204)),
  (40 * scale n, (SERENE_PURPLE.1, SERENE_PURPLE.2.1, SERENE_PURPLE.2.2, 179))]

/-- The inner-gradient pass: for each consecutive pair of gradient stops,
build a radial gradient and paste it. -/
def innerPass (n : ℕ) (img : Image) : Option Image :=
  ((gradient_steps n).zip (gradient_steps n).tail).foldlM
    (fun im p => do
      let g ← create_radial_gradient n (cn n) (cn n)
        ((pyInt p.1.1 : ℤ) : ℚ) ((pyInt p.2.1 : ℤ) : ℚ) p.1.2 p.2.2
      some (im.paste g)) img

/-- `stroke_width = max(1, int(2 * scale))`. -/
def stroke_width (n : ℕ) : ℤ := max 1 (pyInt (2 * scale n))

/-- The center-circle stroke pass: `stroke_width` one-pixel outlines of
radius `center_radius - i/2`. -/
def strokePass (n : ℕ) (img : Image) : Image :=
  (List.range (stroke_width n).toNat).foldl
    (fun im i => im.ellipseOutlineBlend (cn n) (cn n) ((center_radius n : ℚ) - (i : ℚ) / 2)
      (CALM_BLUE.1, CALM_BLUE.2.1, CALM_BLUE.2.2, 255)) img

/-- `draw_breathing_circles_icon(size)`: background gradient, outer glow,
concentric circles, inner gradient, center stroke. -/
def draw_breathing_circles_icon (n : ℕ) : Option Image := do
  let img ← bgPass n
  let g ← glow n
  let img := img.paste g
  let img := (circles n).foldl (drawCircle n) img
  let img ← innerPass n img
  some (strokePass n img)

/-- One iteration of the writer loop of `generate_all_icons`: the body is
wrapped in `try`/`except`, so a failing entry (render or save raises, as
told by the oracle `fails`) increments `fail_count` and a successful entry
increments `success_count`; either way the loop proceeds. -/
def iconStep (fails : String × ℕ → Bool) (c : ℤ × ℤ) (e : String × ℕ) : ℤ × ℤ :=
  if fails e then (c.1, c.2 + 1) else (c.1 + 1, c.2)

/-- Counters after the first `k` entries of the icon loop. -/
def countsAfter (fails : String × ℕ → Bool) (k : ℕ) : ℤ × ℤ :=
  (ICON_SIZES.take k).foldl (iconStep fails) (0, 0)

/-- Counters after the whole icon loop. -/
def iconLoop (fails : String × ℕ → Bool) : ℤ × ℤ :=
  ICON_SIZES.foldl (iconStep fails) (0, 0)

/-- `generate_all_icons`: the icon loop followed by the `Contents.json`
write, itself wrapped in `try`/`except`; a failing manifest write
increments `fail_count` (a successful one increments nothing). -/
def generate_all_icons (fails : String × ℕ → Bool) (manifestFails : Bool) : ℤ × ℤ :=
  let c := iconLoop fails
  if manifestFails then (c.1, c.2 + 1) else c

end AppIcons

namespace ZenIcons

/-- The size table `ICON_SPECS` of `generate_icons.py`:
`(size, scale, filename)`; the nominal size `83.5` is a float. -/
def ICON_SPECS : List (ℚ × ℕ × String) := [
  (20, 2, "icon-20@2x.png"),
  (20, 3, "icon-20@3x.png"),
  (29, 2, "icon-29@2x.png"),
  (29, 3, "icon-29@3x.png"),
  (40, 2, "icon-40@2x.png"),
  (40, 3, "icon-40@3x.png"),
  (60, 2, "icon-60@2x.png"),
  (60, 3, "icon-60@3x.png"),
  (20, 1, "icon-20.png"),
  (20, 2, "icon-20@2x-ipad.png"),
  (29, 1, "icon-29.png"),
  (29, 2, "icon-29@2x-ipad.png"),
  (40, 1, "icon-40.png"),
  (40, 2, "icon-40@2x-ipad.png"),
  (76, 1, "icon-76.png"),
  (76, 2, "icon-76@2x.png"),
  (83.5, 2, "icon-83.5@2x.png"),
  (1024, 1, "icon-1024.png")]

open scoped Classical in
/-- Python `int()` on a real value: truncation toward zero. -/
noncomputable def pyIntR (x : ℝ) : ℤ := if 0 ≤ x then ⌊x⌋ else ⌈x⌉

open scoped Classical in
/-- Python float division over `ℝ`; `none` models `ZeroDivisionError`. -/
noncomputable def pyDivR (a b : ℝ) : Option ℝ := if b = 0 then none else some (a / b)

/-- `center_x = center_y = size // 2`. -/
def centerX (n : ℕ) : ℕ := n / 2

/-- `max_radius = math.sqrt(center_x**2 + center_y**2)`. -/
noncomputable def max_radius (n : ℕ) : ℝ :=
  Real.sqrt (((centerX n : ℕ) : ℝ) ^ 2 + ((centerX n : ℕ) : ℝ) ^ 2)

/-- `distance = math.sqrt((x - center_x)**2 + (y - center_y)**2)`. -/
noncomputable def distanceTo (n x y : ℕ) : ℝ :=
  Real.sqrt (((x : ℝ) - ((centerX n : ℕ) : ℝ)) ^ 2 + ((y : ℝ) - ((centerX n : ℕ) : ℝ)) ^ 2)

/-- Background color of pixel `(x, y)` in `create_zen_icon`:
`ratio = distance / max_radius` (raising `ZeroDivisionError` when
`max_radius` is zero), then
`(int(100 + ratio*80), int(150 - ratio*70), int(220 - ratio*20))`. -/
noncomputable def zenBgColor (n x y : ℕ) : Option RGBA :=
  (pyDivR (distanceTo n x y) (max_radius n)).map fun ratio =>
    (pyIntR (100 + ratio * 80), pyIntR (150 - ratio * 70), pyIntR (220 - ratio * 20), 255)

/-- One background row of `create_zen_icon`: `img.putpixel((x, y), ...)`
for each `x` of `range(size)`. -/
noncomputable def zenBgRow (n y : ℕ) (im : Image) : Option Image :=
  (List.range n).foldlM (fun im2 x => (zenBgColor n x y).map (im2.putpixel x y)) im

/-- The whole per-pixel background pass of `create_zen_icon`. -/
noncomputable def zenBg (n : ℕ) : Option Image :=
  (List.range n).foldlM (fun im y => zenBgRow n y im) (Image.new n)

/-- `num_circles = 5`. -/
def num_circles : ℕ := 5

/-- `max_circle_radius = size * 0.4`. -/
def max_circle_radius (n : ℕ) : ℚ := (n : ℚ) * 0.4

/-- `radius = max_circle_radius * (i + 1) / num_circles`. -/
def circleRadius (n i : ℕ) : ℚ := max_circle_radius n * ((i : ℚ) + 1) / (num_circles : ℚ)

/-- `opacity = int(255 * (1 - i / num_circles) * 0.5)`. -/
def circleOpacity (i : ℕ) : ℤ := pyInt (255 * (1 - (i : ℚ) / (num_circles : ℚ)) * 0.5)

/-- Outline width `max(1, size // 100)`. -/
def circleW (n : ℕ) : ℕ := max 1 (n / 100)

/-- The concentric breathing-wave circles of `create_zen_icon`. -/
def zenCircles (n : ℕ) (im : Image) : Image :=
  (List.range num_circles).foldl
    (fun im2 i => im2.ellipseOutlineW ((centerX n : ℕ) : ℚ) ((centerX n : ℕ) : ℚ)
      (circleRadius n i) ((circleW n : ℕ) : ℚ) (255, 255, 255, circleOpacity i)) im

/-- `center_radius = size * 0.08`. -/
def center_radius (n : ℕ) : ℚ := (n : ℚ) * 0.08

/-- The filled center dot of `create_zen_icon`. -/
def zenDot (n : ℕ) (im : Image) : Image :=
  im.ellipseFill ((centerX n : ℕ) : ℚ) ((centerX n : ℕ) : ℚ) (center_radius n)
    (255, 255, 255, 230)

/-- `create_zen_icon(size)`: per-pixel radial-gradient background, then
circles and center dot. -/
noncomputable def create_zen_icon (n : ℕ) : Option Image :=
  (zenBg n).map fun im => zenDot n (zenCircles n im)

/-- The writer loop of `generate_icons.py`'s `generate_all_icons`: the body
has no `try`/`except`, so an entry whose render or save raises (as told by
the oracle `fails`) aborts the whole loop; `Except.error k` records that
only `k` entries had been processed when the exception escaped. -/
def generate_all_icons_loop (fails : ℚ × ℕ × String → Bool) :
    List (ℚ × ℕ × String) → ℕ → Except ℕ ℕ
  | [], done => Except.ok done
  | e :: rest, done =>
    if fails e then Except.error done else generate_all_icons_loop fails rest (done + 1)

/-- `generate_all_icons(output_dir)` of `generate_icons.py`, processing the
whole size table. -/
def generate_all_icons (fails : ℚ × ℕ × String → Bool) : Except ℕ ℕ :=
  generate_all_icons_loop fails ICON_SPECS 0

end ZenIcons

/-! ## Helper lemmas -/

/-- A fold in the `Option` monad whose every step succeeds and preserves an
invariant succeeds and preserves the invariant. -/
lemma foldlM_inv {α β : Type} (P : β → Prop) (f : β → α → Option β) :
    ∀ (l : List α) (b : β), P b →
      (∀ b2 a, a ∈ l → P b2 → ∃ b3, f b2 a = some b3 ∧ P b3) →
      ∃ b3, l.foldlM f b = some b3 ∧ P b3 := by
  intro l
  induction l with
  | nil => intro b hb _; exact ⟨b, rfl, hb⟩
  | cons a l ih =>
    intro b hb h
    obtain ⟨b2, hf, hb2⟩ := h b a (List.mem_cons_self a l) hb
    obtain ⟨b3, hfold, hb3⟩ :=
      ih b2 hb2 (fun b4 a2 ha2 => h b4 a2 (List.mem_cons_of_mem a ha2))
    exact ⟨b3, by simp [List.foldlM_cons, hf, hfold], hb3⟩

/-- A pure fold whose every step preserves an invariant preserves it. -/
lemma foldl_preserve {α : Type} (P : Image → Prop) (f : Image → α → Image)
    (l : List α) (im : Image) (him : P im) (h : ∀ im2 a, P im2 → P (f im2 a)) :
    P (l.foldl f im) := by
  induction l generalizing im with
  | nil => exact him
  | cons a l ih => exact ih (f im a) (h im a him)

/-- The output contract of both renderers at dimension `n`: a square
`n`-by-`n` grid with every pixel assigned. -/
def Spec (n : ℕ) (im : Image) : Prop :=
  im.width = n ∧ im.height = n ∧ ∀ x y, x < n → y < n → (im.px x y).isSome

lemma Spec_drawWith {n : ℕ} {im : Image} (mask : ℕ → ℕ → Bool)
    (f : ℕ → ℕ → Option RGBA → RGBA) (h : Spec n im) : Spec n (im.drawWith mask f) :=
  ⟨h.1, h.2.1, fun x y hx hy => Image.drawWith_isSome im mask f x y (h.2.2 x y hx hy)⟩

lemma Image.hline_px_self (img : Image) (y x : ℕ) (c : RGBA) (hx : x < img.width) :
    ((img.hline y c).px x y).isSome := by
  simp [Image.hline, Image.drawWith, hx]

lemma Image.putpixel_px_self (img : Image) (x y : ℕ) (c : RGBA) :
    ((img.putpixel x y c).px x y).isSome := by
  simp [Image.putpixel, Image.drawWith]

lemma bgColor_isSome (n y : ℕ) (hn : 0 < n) : (AppIcons.bgColor n y).isSome := by
  have hne : ((n : ℚ)) ≠ 0 := Nat.cast_ne_zero.mpr hn.ne'
  simp [AppIcons.bgColor, pyDiv, hne]

/-- The background fold of `draw_breathing_circles_icon` succeeds and colors
every pixel of every processed row. -/
lemma bg_fold (n : ℕ) (hn : 0 < n) :
    ∀ (l : List ℕ) (im : Image), im.width = n → im.height = n →
      ∃ im2,
        (l.foldlM (fun img y => (AppIcons.bgColor n y).map (Image.hline img y)) im)
          = some im2
        ∧ im2.width = n ∧ im2.height = n
        ∧ ∀ x y, ((im.px x y).isSome ∨ (x < n ∧ y ∈ l)) → (im2.px x y).isSome := by
  intro l
  induction l with
  | nil =>
    intro im hw hh
    refine ⟨im, rfl, hw, hh, ?_⟩
    rintro x y (h | ⟨_, h⟩)
    · exact h
    · simp at h
  | cons a l ih =>
    intro im hw hh
    obtain ⟨c, hc⟩ := Option.isSome_iff_exists.mp (bgColor_isSome n a hn)
    obtain ⟨im2, hfold, hw2, hh2, hcov⟩ := ih (im.hline a c) hw hh
    refine ⟨im2, ?_, hw2, hh2, ?_⟩
    · simp [List.foldlM_cons, hc, hfold]
    · rintro x y (h | ⟨hx, hy⟩)
      · exact hcov x y (Or.inl (Image.drawWith_isSome _ _ _ _ _ h))
      · rcases List.mem_cons.mp hy with hy | hy
        · subst hy
          exact hcov x y (Or.inl (Image.hline_px_self im y x c (hw ▸ hx)))
        · exact hcov x y (Or.inr ⟨hx, hy⟩)

/-- The background pass of the breathing-circles renderer succeeds and
assigns every pixel. -/
lemma bgPass_run (n : ℕ) (hn : 0 < n) :
    ∃ im, AppIcons.bgPass n = some im ∧ Spec n im := by
  obtain ⟨im2, h, hw, hh, hc⟩ := bg_fold n hn (List.range n) (Image.new n) rfl rfl
  exact ⟨im2, h, hw, hh, fun x y hx hy => hc x y (Or.inr ⟨hx, List.mem_range.mpr hy⟩)⟩

/-- `create_radial_gradient` always succeeds: its per-step division by
`steps` is only reached when `steps` is positive. -/
lemma crg_some (size : ℕ) (cx cy sr er : ℚ) (sc ec : RGBA) :
    ∃ g, AppIcons.create_radial_gradient size cx cy sr er sc ec = some g := by
  have hstep : ∀ (im : Image) (i : ℕ), i ∈ AppIcons.gradRange (pyInt (er - sr)) → True →
      ∃ im2, AppIcons.gradStep cx cy sr er sc ec (pyInt (er - sr)) im i = some im2 ∧ True := by
    intro im i hi _
    have hi2 : i < (pyInt (er - sr)).toNat := List.mem_range.mp hi
    have hpos : (0 : ℤ) < pyInt (er - sr) := by omega
    have hne : (((pyInt (er - sr) : ℤ) : ℚ)) ≠ 0 := by
      exact_mod_cast hpos.ne'
    have hsome : (AppIcons.gradStep cx cy sr er sc ec (pyInt (er - sr)) im i).isSome := by
      simp [AppIcons.gradStep, pyDiv, hne]
    obtain ⟨im2, him2⟩ := Option.isSome_iff_exists.mp hsome
    exact ⟨im2, him2, trivial⟩
  obtain ⟨g, hg, -⟩ :=
    foldlM_inv (fun _ => True)
      (AppIcons.gradStep cx cy sr er sc ec (pyInt (er - sr)))
      (AppIcons.gradRange (pyInt (er - sr))) (Image.new size) trivial hstep
  exact ⟨g, hg⟩

/-- The inner-gradient pass succeeds and preserves the output contract. -/
lemma innerPass_run (n : ℕ) (im : Image) (him : Spec n im) :
    ∃ im2, AppIcons.innerPass n im = some im2 ∧ Spec n im2 := by
  exact foldlM_inv (Spec n) _ _ im him (by
    intro im2 p _ h2
    obtain ⟨g, hg⟩ := crg_some n (AppIcons.cn n) (AppIcons.cn n)
      ((pyInt p.1.1 : ℤ) : ℚ) ((pyInt p.2.1 : ℤ) : ℚ) p.1.2 p.2.2
    exact ⟨im2.paste g, by simp [hg], Spec_drawWith _ _ h2⟩)

/-- The full breathing-circles renderer succeeds at every positive
dimension and meets the output contract. -/
lemma breathing_run (n : ℕ) (hn : 0 < n) :
    ∃ img, AppIcons.draw_breathing_circles_icon n = some img ∧ Spec n img := by
  obtain ⟨im0, h0, hs0⟩ := bgPass_run n hn
  have hglow : ∃ g, AppIcons.glow n = some g := by
    unfold AppIcons.glow
    exact crg_some n (AppIcons.cn n) (AppIcons.cn n) _ _ _ _
  obtain ⟨g, hg⟩ := hglow
  have hs1 : Spec n (im0.paste g) := Spec_drawWith _ _ hs0
  have hs2 : Spec n ((AppIcons.circles n).foldl (AppIcons.drawCircle n) (im0.paste g)) := by
    refine foldl_preserve (Spec n) _ _ _ hs1 ?_
    intro im2 a h2
    exact foldl_preserve (Spec n) _ _ _ h2 (fun im3 i h3 => Spec_drawWith _ _ h3)
  obtain ⟨im3, h3, hs3⟩ := innerPass_run n _ hs2
  have hs4 : Spec n (AppIcons.strokePass n im3) :=
    foldl_preserve (Spec n) _ _ _ hs3 (fun im4 i h4 => Spec_drawWith _ _ h4)
  refine ⟨AppIcons.strokePass n im3, ?_, hs4⟩
  simp [AppIcons.draw_breathing_circles_icon, h0, hg, h3]

lemma breathing_isSome (n : ℕ) (hn : 0 < n) :
    (AppIcons.draw_breathing_circles_icon n).isSome := by
  obtain ⟨img, h, -⟩ := breathing_run n hn
  simp [h]

lemma max_radius_ne (n : ℕ) (hn : 2 ≤ n) : ZenIcons.max_radius n ≠ 0 := by
  have hc : 1 ≤ ZenIcons.centerX n := by
    unfold ZenIcons.centerX; omega
  have hc2 : (1 : ℝ) ≤ ((ZenIcons.centerX n : ℕ) : ℝ) := by exact_mod_cast hc
  have hpos : (0 : ℝ) < ((ZenIcons.centerX n : ℕ) : ℝ) ^ 2 + ((ZenIcons.centerX n : ℕ) : ℝ) ^ 2 := by
    nlinarith
  exact (Real.sqrt_pos.mpr hpos).ne'

lemma zenBgColor_isSome (n x y : ℕ) (h : ZenIcons.max_radius n ≠ 0) :
    (ZenIcons.zenBgColor n x y).isSome := by
  simp [ZenIcons.zenBgColor, ZenIcons.pyDivR, h]

/-- One background row of `create_zen_icon` succeeds and assigns every
processed pixel of its row. -/
lemma zen_row_fold (n y₀ : ℕ) (h : ZenIcons.max_radius n ≠ 0) :
    ∀ (l : List ℕ) (im : Image), im.width = n → im.height = n →
      ∃ im2,
        (l.foldlM (fun im2 x => (ZenIcons.zenBgColor n x y₀).map (im2.putpixel x y₀)) im)
          = some im2
        ∧ im2.width = n ∧ im2.height = n
        ∧ ∀ a b, ((im.px a b).isSome ∨ (a ∈ l ∧ b = y₀)) → (im2.px a b).isSome := by
  intro l
  induction l with
  | nil =>
    intro im hw hh
    refine ⟨im, rfl, hw, hh, ?_⟩
    rintro a b (h2 | ⟨h2, _⟩)
    · exact h2
    · simp at h2
  | cons x l ih =>
    intro im hw hh
    obtain ⟨c, hc⟩ := Option.isSome_iff_exists.mp (zenBgColor_isSome n x y₀ h)
    obtain ⟨im2, hfold, hw2, hh2, hcov⟩ := ih (im.putpixel x y₀ c) hw hh
    refine ⟨im2, ?_, hw2, hh2, ?_⟩
    · simp [List.foldlM_cons, hc, hfold]
    · rintro a b (h2 | ⟨ha, hb⟩)
      · exact hcov a b (Or.inl (Image.drawWith_isSome _ _ _ _ _ h2))
      · refine hcov a b ?_
        rcases List.mem_cons.mp ha with ha2 | ha2
        · left
          rw [ha2, hb]
          exact Image.putpixel_px_self im x y₀ c
        · exact Or.inr ⟨ha2, hb⟩

/-- The whole per-pixel background pass of `create_zen_icon` succeeds and
assigns every pixel of every processed row. -/
lemma zen_fold (n : ℕ) (h : ZenIcons.max_radius n ≠ 0) :
    ∀ (l : List ℕ) (im : Image), im.width = n → im.height = n →
      ∃ im2, (l.foldlM (fun im y => ZenIcons.zenBgRow n y im) im) = some im2
        ∧ im2.width = n ∧ im2.height = n
        ∧ ∀ a b, ((im.px a b).isSome ∨ (a < n ∧ b ∈ l)) → (im2.px a b).isSome := by
  intro l
  induction l with
  | nil =>
    intro im hw hh
    refine ⟨im, rfl, hw, hh, ?_⟩
    rintro a b (h2 | ⟨_, h2⟩)
    · exact h2
    · simp at h2
  | cons y l ih =>
    intro im hw hh
    obtain ⟨im1, hrow, hw1, hh1, hcov1⟩ := zen_row_fold n y h (List.range n) im hw hh
    obtain ⟨im2, hfold, hw2, hh2, hcov2⟩ := ih im1 hw1 hh1
    refine ⟨im2, ?_, hw2, hh2, ?_⟩
    · simpa [List.foldlM_cons, ZenIcons.zenBgRow, hrow] using hfold
    · rintro a b (h2 | ⟨ha, hb⟩)
      · exact hcov2 a b (Or.inl (hcov1 a b (Or.inl h2)))
      · rcases List.mem_cons.mp hb with hb | hb
        · subst hb
          exact hcov2 a b (Or.inl (hcov1 a b (Or.inr ⟨List.mem_range.mpr ha, rfl⟩)))
        · exact hcov2 a b (Or.inr ⟨ha, hb⟩)

/-- The full zen renderer succeeds at every dimension of at least 2 and
meets the output contract. -/
lemma zen_run (n : ℕ) (hn : 2 ≤ n) :
    ∃ img, ZenIcons.create_zen_icon n = some img ∧ Spec n img := by
  have h := max_radius_ne n hn
  obtain ⟨im2, hfold, hw, hh, hcov⟩ := zen_fold n h (List.range n) (Image.new n) rfl rfl
  have hbg : ZenIcons.zenBg n = some im2 := hfold
  have hs2 : Spec n im2 :=
    ⟨hw, hh, fun x y hx hy => hcov x y (Or.inr ⟨hx, List.mem_range.mpr hy⟩)⟩
  have hs3 : Spec n (ZenIcons.zenCircles n im2) :=
    foldl_preserve (Spec n) _ _ _ hs2 (fun im3 i h3 => Spec_drawWith _ _ h3)
  have hs4 : Spec n (ZenIcons.zenDot n (ZenIcons.zenCircles n im2)) := Spec_drawWith _ _ hs3
  exact ⟨_, by simp [ZenIcons.create_zen_icon, hbg], hs4⟩

lemma zen_isSome (n : ℕ) (hn : 2 ≤ n) : (ZenIcons.create_zen_icon n).isSome := by
  obtain ⟨img, h, -⟩ := zen_run n hn
  simp [h]

lemma pyInt_eq_floor (q : ℚ) (h : 0 ≤ q) : pyInt q = ⌊q⌋ := if_pos h

lemma pyIntR_eq_floor (x : ℝ) (h : 0 ≤ x) : ZenIcons.pyIntR x = ⌊x⌋ := by
  simp [ZenIcons.pyIntR, h]

lemma floor_bounds (q : ℚ) (h0 : 0 ≤ q) (h1 : q ≤ 255) : 0 ≤ ⌊q⌋ ∧ ⌊q⌋ ≤ 255 := by
  constructor
  · exact Int.le_floor.mpr (by exact_mod_cast h0)
  · have h2 := Int.floor_mono h1
    simpa using h2

lemma floor_double (q : ℚ) : 2 * ⌊q⌋ ≤ ⌊2 * q⌋ ∧ ⌊2 * q⌋ ≤ 2 * ⌊q⌋ + 1 := by
  constructor
  · refine Int.le_floor.mpr ?_
    push_cast
    linarith [Int.floor_le q]
  · have h2 : ⌊2 * q⌋ < 2 * ⌊q⌋ + 2 := by
      refine Int.floor_lt.mpr ?_
      push_cast
      linarith [Int.lt_floor_add_one q]
    omega

lemma pyInt_double (q : ℚ) (h : 0 ≤ q) : |pyInt (2 * q) - 2 * pyInt q| ≤ 1 := by
  rw [pyInt_eq_floor _ (by linarith), pyInt_eq_floor q h]
  have h2 := floor_double q
  rw [abs_le]
  omega

/-- Linear interpolation between two channels in `[0, 255]` at a parameter
in `[0, 1]` stays in `[0, 255]`, and `int()` on it is a floor. -/
lemma interp_channel (a b : ℤ) (t : ℚ) (ht0 : 0 ≤ t) (ht1 : t ≤ 1)
    (ha : 0 ≤ a) (hb : 0 ≤ b) (ha2 : a ≤ 255) (hb2 : b ≤ 255) :
    pyInt ((a : ℚ) + ((b : ℚ) - (a : ℚ)) * t) = ⌊(a : ℚ) + ((b : ℚ) - (a : ℚ)) * t⌋
    ∧ 0 ≤ ⌊(a : ℚ) + ((b : ℚ) - (a : ℚ)) * t⌋
    ∧ ⌊(a : ℚ) + ((b : ℚ) - (a : ℚ)) * t⌋ ≤ 255 := by
  have haq : (0 : ℚ) ≤ (a : ℚ) := by exact_mod_cast ha
  have hbq : (0 : ℚ) ≤ (b : ℚ) := by exact_mod_cast hb
  have haq2 : (a : ℚ) ≤ 255 := by exact_mod_cast ha2
  have hbq2 : (b : ℚ) ≤ 255 := by exact_mod_cast hb2
  have e0 : (0 : ℚ) ≤ (a : ℚ) + ((b : ℚ) - (a : ℚ)) * t := by
    nlinarith [mul_nonneg hbq ht0, mul_nonneg haq (sub_nonneg.mpr ht1)]
  have e1 : (a : ℚ) + ((b : ℚ) - (a : ℚ)) * t ≤ 255 := by
    nlinarith [mul_nonneg (sub_nonneg.mpr haq2) (sub_nonneg.mpr ht1),
      mul_nonneg (sub_nonneg.mpr hbq2) ht0]
  exact ⟨pyInt_eq_floor _ e0, (floor_bounds _ e0 e1).1, (floor_bounds _ e0 e1).2⟩

/-! ## Claim theorems -/

/-- C3: for the manifest-producing pipeline, the manifest's `images` list
has exactly as many records as the size table has entries, and the sequence
of filenames in the manifest's records equals the sequence of filenames in
the size table (no extras, no omissions). -/
theorem C3_manifest_matches_table :
    AppIcons.CONTENTS_JSON.images.length = AppIcons.ICON_SIZES.length
    ∧ AppIcons.CONTENTS_JSON.images.map AppIcons.ManifestEntry.filename
        = AppIcons.ICON_SIZES.map Prod.fst := by
  constructor <;> rfl

/-- C9: the two pipelines' size tables are equivalent: same length 18, the
same filenames in the same order, and the first table's pixel dimension at
each position equals `int(base_size * scale)` of the second table's entry
at the same position. -/
theorem C9_size_tables_agree :
    ZenIcons.ICON_SPECS.length = 18
    ∧ AppIcons.ICON_SIZES.length = 18
    ∧ ZenIcons.ICON_SPECS.map (fun e => e.2.2) = AppIcons.ICON_SIZES.map (fun e => e.1)
    ∧ ZenIcons.ICON_SPECS.map (fun e => pyInt (e.1 * ((e.2.1 : ℕ) : ℚ)))
        = AppIcons.ICON_SIZES.map (fun e => ((e.2 : ℕ) : ℤ)) := by
  refine ⟨rfl, rfl, rfl, ?_⟩
  simp only [ZenIcons.ICON_SPECS, AppIcons.ICON_SIZES, List.map, pyInt]
  norm_num

/-- C5: in the vertical-gradient renderer's background pass, for every row
`y` of an `n`-pixel image, each channel of that row's background color is
`⌊start + (end - start) * t⌋` with start `LIGHTER_INDIGO`, end
`DEEP_INDIGO` and `t = y / n`, channels computed independently and each
lying in `[0, 255]`. -/
theorem C5_vertical_gradient (n y : ℕ) (hn : 0 < n) (hy : y < n) :
    ∃ r g b : ℤ,
      AppIcons.bgColor n y = some (r, g, b, 255)
      ∧ r = ⌊(AppIcons.LIGHTER_INDIGO.1 : ℚ)
            + ((AppIcons.DEEP_INDIGO.1 : ℚ) - (AppIcons.LIGHTER_INDIGO.1 : ℚ))
              * ((y : ℚ) / (n : ℚ))⌋
      ∧ g = ⌊(AppIcons.LIGHTER_INDIGO.2.1 : ℚ)
            + ((AppIcons.DEEP_INDIGO.2.1 : ℚ) - (AppIcons.LIGHTER_INDIGO.2.1 : ℚ))
              * ((y : ℚ) / (n : ℚ))⌋
      ∧ b = ⌊(AppIcons.LIGHTER_INDIGO.2.2 : ℚ)
            + ((AppIcons.DEEP_INDIGO.2.2 : ℚ) - (AppIcons.LIGHTER_INDIGO.2.2 : ℚ))
              * ((y : ℚ) / (n : ℚ))⌋
      ∧ 0 ≤ r ∧ r ≤ 255 ∧ 0 ≤ g ∧ g ≤ 255 ∧ 0 ≤ b ∧ b ≤ 255 := by
  have hne : ((n : ℚ)) ≠ 0 := Nat.cast_ne_zero.mpr hn.ne'
  have ht0 : 0 ≤ (y : ℚ) / (n : ℚ) := by positivity
  have ht1 : (y : ℚ) / (n : ℚ) ≤ 1 := by
    rw [div_le_one (by exact_mod_cast hn)]
    exact_mod_cast hy.le
  have hR := interp_channel AppIcons.LIGHTER_INDIGO.1 AppIcons.DEEP_INDIGO.1
    ((y : ℚ) / (n : ℚ)) ht0 ht1 (by decide) (by decide) (by decide) (by decide)
  have hG := interp_channel AppIcons.LIGHTER_INDIGO.2.1 AppIcons.DEEP_INDIGO.2.1
    ((y : ℚ) / (n : ℚ)) ht0 ht1 (by decide) (by decide) (by decide) (by decide)
  have hB := interp_channel AppIcons.LIGHTER_INDIGO.2.2 AppIcons.DEEP_INDIGO.2.2
    ((y : ℚ) / (n : ℚ)) ht0 ht1 (by decide) (by decide) (by decide) (by decide)
  refine ⟨_, _, _, ?_, hR.1, hG.1, hB.1, ?_, ?_, ?_, ?_, ?_, ?_⟩
  · simp [AppIcons.bgColor, pyDiv, hne]
  · rw [hR.1]; exact hR.2.1
  · rw [hR.1]; exact hR.2.2
  · rw [hG.1]; exact hG.2.1
  · rw [hG.1]; exact hG.2.2
  · rw [hB.1]; exact hB.2.1
  · rw [hB.1]; exact hB.2.2

/-- C8: in the radial-gradient renderer's background pass, every pixel's
color is driven by `t = dist((x,y),(n//2,n//2)) / sqrt((n//2)^2 + (n//2)^2)`
(distance from the image center normalized by the distance from the center
to the farthest corner), with channels
`(⌊100 + 80t⌋, ⌊150 - 70t⌋, ⌊220 - 20t⌋)`. -/
theorem C8_radial_gradient (n x y : ℕ) (hn : 2 ≤ n) (hx : x < n) (hy : y < n) :
    ZenIcons.zenBgColor n x y = some
      (⌊(100 : ℝ) + 80 * (ZenIcons.distanceTo n x y
          / Real.sqrt (((n / 2 : ℕ) : ℝ) ^ 2 + ((n / 2 : ℕ) : ℝ) ^ 2))⌋,
       ⌊(150 : ℝ) - 70 * (ZenIcons.distanceTo n x y
          / Real.sqrt (((n / 2 : ℕ) : ℝ) ^ 2 + ((n / 2 : ℕ) : ℝ) ^ 2))⌋,
       ⌊(220 : ℝ) - 20 * (ZenIcons.distanceTo n x y
          / Real.sqrt (((n / 2 : ℕ) : ℝ) ^ 2 + ((n / 2 : ℕ) : ℝ) ^ 2))⌋, 255) := by
  have hm : ZenIcons.max_radius n ≠ 0 := max_radius_ne n hn
  have hmpos : 0 < ZenIcons.max_radius n :=
    lt_of_le_of_ne (Real.sqrt_nonneg _) (Ne.symm hm)
  have ht0 : 0 ≤ ZenIcons.distanceTo n x y / ZenIcons.max_radius n :=
    div_nonneg (Real.sqrt_nonneg _) hmpos.le
  have hx2 : x ≤ 2 * ZenIcons.centerX n := by unfold ZenIcons.centerX; omega
  have hy2 : y ≤ 2 * ZenIcons.centerX n := by unfold ZenIcons.centerX; omega
  have hxr : ((x : ℝ) - ((ZenIcons.centerX n : ℕ) : ℝ)) ^ 2
      ≤ ((ZenIcons.centerX n : ℕ) : ℝ) ^ 2 := by
    have h1 : (x : ℝ) ≤ 2 * ((ZenIcons.centerX n : ℕ) : ℝ) := by exact_mod_cast hx2
    have h2 : (0 : ℝ) ≤ (x : ℝ) := Nat.cast_nonneg x
    exact sq_le_sq' (by linarith) (by linarith)
  have hyr : ((y : ℝ) - ((ZenIcons.centerX n : ℕ) : ℝ)) ^ 2
      ≤ ((ZenIcons.centerX n : ℕ) : ℝ) ^ 2 := by
    have h1 : (y : ℝ) ≤ 2 * ((ZenIcons.centerX n : ℕ) : ℝ) := by exact_mod_cast hy2
    have h2 : (0 : ℝ) ≤ (y : ℝ) := Nat.cast_nonneg y
    exact sq_le_sq' (by linarith) (by linarith)
  have hdist : ZenIcons.distanceTo n x y ≤ ZenIcons.max_radius n := by
    unfold ZenIcons.distanceTo ZenIcons.max_radius
    exact Real.sqrt_le_sqrt (add_le_add hxr hyr)
  have ht1 : ZenIcons.distanceTo n x y / ZenIcons.max_radius n ≤ 1 :=
    (div_le_one hmpos).mpr hdist
  have e1 : (0 : ℝ) ≤ 100 + ZenIcons.distanceTo n x y / ZenIcons.max_radius n * 80 := by
    linarith
  have e2 : (0 : ℝ) ≤ 150 - ZenIcons.distanceTo n x y / ZenIcons.max_radius n * 70 := by
    linarith
  have e3 : (0 : ℝ) ≤ 220 - ZenIcons.distanceTo n x y / ZenIcons.max_radius n * 20 := by
    linarith
  unfold ZenIcons.zenBgColor ZenIcons.pyDivR
  rw [if_neg hm]
  simp only [Option.map_some']
  rw [pyIntR_eq_floor _ e1, pyIntR_eq_floor _ e2, pyIntR_eq_floor _ e3]
  simp only [ZenIcons.max_radius, ZenIcons.centerX]
  ring_nf

lemma scale_nonneg (n : ℕ) : 0 ≤ AppIcons.scale n := by
  unfold AppIcons.scale
  positivity

/-- C7: the real-valued shape parameters at dimension `2N` are exactly
double those at dimension `N`; the `int()`-rounded parameters are double
within a tolerance of 1, including the `max(1, ...)`-clamped stroke
widths. -/
theorem C7_scaling_consistency (n : ℕ) (hn : 0 < n) :
    AppIcons.scale (2 * n) = 2 * AppIcons.scale n
    ∧ (AppIcons.circles (2 * n)).map (fun c => (c.1, c.2.1))
        = (AppIcons.circles n).map (fun c => (2 * c.1, 2 * c.2.1))
    ∧ (AppIcons.gradient_steps (2 * n)).map (fun p => p.1)
        = (AppIcons.gradient_steps n).map (fun p => 2 * p.1)
    ∧ ZenIcons.max_circle_radius (2 * n) = 2 * ZenIcons.max_circle_radius n
    ∧ (∀ i : ℕ, ZenIcons.circleRadius (2 * n) i = 2 * ZenIcons.circleRadius n i)
    ∧ ZenIcons.center_radius (2 * n) = 2 * ZenIcons.center_radius n
    ∧ (∀ c : ℚ, 0 ≤ c →
        |pyInt (c * AppIcons.scale (2 * n)) - 2 * pyInt (c * AppIcons.scale n)| ≤ 1)
    ∧ |AppIcons.center_radius (2 * n) - 2 * AppIcons.center_radius n| ≤ 1
    ∧ |AppIcons.stroke_width (2 * n) - 2 * AppIcons.stroke_width n| ≤ 1
    ∧ ZenIcons.circleW (2 * n) ≤ 2 * ZenIcons.circleW n + 1
    ∧ 2 * ZenIcons.circleW n ≤ ZenIcons.circleW (2 * n) + 1 := by
  have hscale : AppIcons.scale (2 * n) = 2 * AppIcons.scale n := by
    unfold AppIcons.scale
    push_cast
    ring
  have hgen : ∀ c : ℚ, 0 ≤ c →
      |pyInt (c * AppIcons.scale (2 * n)) - 2 * pyInt (c * AppIcons.scale n)| ≤ 1 := by
    intro c hc
    have harg : c * AppIcons.scale (2 * n) = 2 * (c * AppIcons.scale n) := by
      rw [hscale]; ring
    rw [harg]
    exact pyInt_double _ (mul_nonneg hc (scale_nonneg n))
  refine ⟨hscale, ?_, ?_, ?_, ?_, ?_, hgen, ?_, ?_, ?_, ?_⟩
  · simp [AppIcons.circles, hscale]
    ring_nf
    try simp
  · simp [AppIcons.gradient_steps, hscale]
    ring_nf
    try simp
  · unfold ZenIcons.max_circle_radius
    push_cast
    try ring
  · intro i
    unfold ZenIcons.circleRadius ZenIcons.max_circle_radius ZenIcons.num_circles
    push_cast
    try ring
  · unfold ZenIcons.center_radius
    push_cast
    try ring
  · exact hgen 40 (by norm_num)
  · unfold AppIcons.stroke_width
    have hq : (0 : ℚ) ≤ 2 * AppIcons.scale n := by
      have := scale_nonneg n
      linarith
    have harg : 2 * AppIcons.scale (2 * n) = 2 * (2 * AppIcons.scale n) := by
      rw [hscale]
    rw [harg, pyInt_eq_floor _ (by linarith), pyInt_eq_floor _ hq]
    have hq0 : (0 : ℤ) ≤ ⌊2 * AppIcons.scale n⌋ := Int.floor_nonneg.mpr hq
    have hd := floor_double (2 * AppIcons.scale n)
    rcases max_cases (1 : ℤ) ⌊2 * (2 * AppIcons.scale n)⌋ with ⟨e1, l1⟩ | ⟨e1, l1⟩ <;>
      rcases max_cases (1 : ℤ) ⌊2 * AppIcons.scale n⌋ with ⟨e2, l2⟩ | ⟨e2, l2⟩ <;>
      rw [e1, e2, abs_le] <;> omega
  · unfold ZenIcons.circleW
    rcases max_cases 1 (2 * n / 100) with ⟨e1, l1⟩ | ⟨e1, l1⟩ <;>
      rcases max_cases 1 (n / 100) with ⟨e2, l2⟩ | ⟨e2, l2⟩ <;>
      rw [e1, e2] <;> omega
  · unfold ZenIcons.circleW
    rcases max_cases 1 (2 * n / 100) with ⟨e1, l1⟩ | ⟨e1, l1⟩ <;>
      rcases max_cases 1 (n / 100) with ⟨e2, l2⟩ | ⟨e2, l2⟩ <;>
      rw [e1, e2] <;> omega

lemma iconStep_sum (fails : String × ℕ → Bool) (c : ℤ × ℤ) (e : String × ℕ) :
    (AppIcons.iconStep fails c e).1 + (AppIcons.iconStep fails c e).2 = c.1 + c.2 + 1 := by
  unfold AppIcons.iconStep
  by_cases hf : fails e <;> simp [hf] <;> ring

lemma iconStep_mono (fails : String × ℕ → Bool) (c : ℤ × ℤ) (e : String × ℕ) :
    c.1 ≤ (AppIcons.iconStep fails c e).1 ∧ c.2 ≤ (AppIcons.iconStep fails c e).2 := by
  unfold AppIcons.iconStep
  by_cases hf : fails e <;> simp [hf]

lemma iconFold_sum (fails : String × ℕ → Bool) :
    ∀ (l : List (String × ℕ)) (c : ℤ × ℤ),
      (l.foldl (AppIcons.iconStep fails) c).1 + (l.foldl (AppIcons.iconStep fails) c).2
        = c.1 + c.2 + l.length := by
  intro l
  induction l with
  | nil => intro c; simp
  | cons e l ih =>
    intro c
    rw [List.foldl_cons, ih (AppIcons.iconStep fails c e), iconStep_sum]
    simp only [List.length_cons]
    push_cast
    ring

lemma iconFold_nonneg (fails : String × ℕ → Bool) :
    ∀ (l : List (String × ℕ)) (c : ℤ × ℤ), 0 ≤ c.1 → 0 ≤ c.2 →
      0 ≤ (l.foldl (AppIcons.iconStep fails) c).1
      ∧ 0 ≤ (l.foldl (AppIcons.iconStep fails) c).2 := by
  intro l
  induction l with
  | nil => intro c h1 h2; exact ⟨h1, h2⟩
  | cons e l ih =>
    intro c h1 h2
    rw [List.foldl_cons]
    have hm := iconStep_mono fails c e
    exact ih _ (le_trans h1 hm.1) (le_trans h2 hm.2)

lemma zen_writer_abort (fl : ℚ × ℕ × String → Bool) :
    ∀ (l : List (ℚ × ℕ × String)) (acc : ℕ), (∃ e ∈ l, fl e = true) →
      ∃ k, ZenIcons.generate_all_icons_loop fl l acc = Except.error k
        ∧ k < acc + l.length := by
  intro l
  induction l with
  | nil => intro acc h; simp at h
  | cons e l ih =>
    intro acc h
    by_cases hf : fl e
    · exact ⟨acc, by simp [ZenIcons.generate_all_icons_loop, hf], by simp⟩
    · have h2 : ∃ e2 ∈ l, fl e2 = true := by
        obtain ⟨e2, he2, hfe2⟩ := h
        rcases List.mem_cons.mp he2 with he2 | he2
        · exact absurd (he2 ▸ hfe2) hf
        · exact ⟨e2, he2, hfe2⟩
      obtain ⟨k, hk, hlt⟩ := ih (acc + 1) h2
      refine ⟨k, by simp [ZenIcons.generate_all_icons_loop, hf, hk], by simp; omega⟩

lemma zen_writer_ok (fl : ℚ × ℕ × String → Bool) :
    ∀ (l : List (ℚ × ℕ × String)) (acc : ℕ), (∀ e ∈ l, fl e = false) →
      ZenIcons.generate_all_icons_loop fl l acc = Except.ok (acc + l.length) := by
  intro l
  induction l with
  | nil => intro acc _; simp [ZenIcons.generate_all_icons_loop]
  | cons e l ih =>
    intro acc h
    have hf : fl e = false := h e (List.mem_cons_self e l)
    have hrest := ih (acc + 1) (fun e2 he2 => h e2 (List.mem_cons_of_mem e he2))
    rw [ZenIcons.generate_all_icons_loop, if_neg (by simp [hf]), hrest]
    congr 1
    simp
    omega

/-- C1 (corrected): in the manifest-producing pipeline the writer loop
catches every per-entry failure, counts it and proceeds, so every entry
contributes to exactly one counter and the loop always completes with
`success + fail = 18`; in the second pipeline the writer loop has no
exception handling, so the first failing entry aborts the run before the
remaining entries are processed, and the batch completes only when no
entry fails. -/
theorem C1_writer_loops_amended :
    (∀ fails : String × ℕ → Bool,
      (AppIcons.iconLoop fails).1 + (AppIcons.iconLoop fails).2
        = (AppIcons.ICON_SIZES.length : ℤ))
    ∧ (∀ fl : ℚ × ℕ × String → Bool, (∃ e ∈ ZenIcons.ICON_SPECS, fl e = true) →
        ∃ k, ZenIcons.generate_all_icons fl = Except.error k
          ∧ k < ZenIcons.ICON_SPECS.length)
    ∧ (∀ fl : ℚ × ℕ × String → Bool, (∀ e ∈ ZenIcons.ICON_SPECS, fl e = false) →
        ZenIcons.generate_all_icons fl = Except.ok ZenIcons.ICON_SPECS.length) := by
  refine ⟨?_, ?_, ?_⟩
  · intro fails
    have h := iconFold_sum fails AppIcons.ICON_SIZES (0, 0)
    unfold AppIcons.iconLoop
    rw [h]
    norm_num
  · intro fl h
    obtain ⟨k, hk, hlt⟩ := zen_writer_abort fl ZenIcons.ICON_SPECS 0 h
    exact ⟨k, hk, by simpa using hlt⟩
  · intro fl h
    have := zen_writer_ok fl ZenIcons.ICON_SPECS 0 h
    simpa using this

/-- C1 counterexample: with the first table entry failing, the second
pipeline's writer aborts after processing zero entries instead of catching
the failure and continuing with the remaining seventeen. -/
theorem C1_second_writer_aborts :
    ZenIcons.generate_all_icons (fun e => e.2.2 == "icon-20@2x.png") = Except.error 0 := rfl

/-- C1 witness: the amended theorem applied at concrete oracles. -/
theorem C1_witness :
    ((AppIcons.iconLoop (fun _ => false)).1 + (AppIcons.iconLoop (fun _ => false)).2
      = (AppIcons.ICON_SIZES.length : ℤ))
    ∧ ∃ k, ZenIcons.generate_all_icons (fun _ => true) = Except.error k
        ∧ k < ZenIcons.ICON_SPECS.length := by
  refine ⟨C1_writer_loops_amended.1 _, C1_writer_loops_amended.2.1 _ ?_⟩
  exact ⟨(20, 2, "icon-20@2x.png"), by simp [ZenIcons.ICON_SPECS], rfl⟩

/-- C10: each iteration of the per-entry loop adds exactly one to one of
the two counters; after `k` entries the counters sum to `k`, after the
whole icon loop to 18, and after the manifest step to 18 or 19; both
counters are non-negative and non-decreasing. -/
theorem C10_counter_invariants (fails : String × ℕ → Bool) (mf : Bool) (k : ℕ) :
    (∀ (c : ℤ × ℤ) (e : String × ℕ),
      (AppIcons.iconStep fails c e).1 + (AppIcons.iconStep fails c e).2 = c.1 + c.2 + 1)
    ∧ (k ≤ 18 →
        (AppIcons.countsAfter fails k).1 + (AppIcons.countsAfter fails k).2 = (k : ℤ))
    ∧ (AppIcons.iconLoop fails).1 + (AppIcons.iconLoop fails).2 = 18
    ∧ ((AppIcons.generate_all_icons fails mf).1 + (AppIcons.generate_all_icons fails mf).2
        = if mf then 19 else 18)
    ∧ (AppIcons.countsAfter fails k).1 ≤ (AppIcons.countsAfter fails (k + 1)).1
    ∧ (AppIcons.countsAfter fails k).2 ≤ (AppIcons.countsAfter fails (k + 1)).2
    ∧ 0 ≤ (AppIcons.countsAfter fails k).1 ∧ 0 ≤ (AppIcons.countsAfter fails k).2 := by
  have h18 : AppIcons.ICON_SIZES.length = 18 := rfl
  have hloop : (AppIcons.iconLoop fails).1 + (AppIcons.iconLoop fails).2 = 18 := by
    unfold AppIcons.iconLoop
    rw [iconFold_sum fails AppIcons.ICON_SIZES (0, 0), h18]
    norm_num
  refine ⟨iconStep_sum fails, ?_, hloop, ?_, ?_, ?_, ?_, ?_⟩
  · intro hk
    unfold AppIcons.countsAfter
    rw [iconFold_sum fails _ (0, 0)]
    have hlen : (AppIcons.ICON_SIZES.take k).length = k := by
      rw [List.length_take, h18]
      omega
    rw [hlen]
    ring
  · by_cases hmf : mf <;>
      simp [AppIcons.generate_all_icons, hmf] <;> omega
  · unfold AppIcons.countsAfter
    cases hg : AppIcons.ICON_SIZES[k]? with
    | none =>
      rw [List.take_succ, hg]
      simp
    | some e =>
      rw [List.take_succ, hg]
      simp only [List.foldl_append, Option.toList_some, List.foldl_cons, List.foldl_nil]
      exact (iconStep_mono fails _ e).1
  · unfold AppIcons.countsAfter
    cases hg : AppIcons.ICON_SIZES[k]? with
    | none =>
      rw [List.take_succ, hg]
      simp
    | some e =>
      rw [List.take_succ, hg]
      simp only [List.foldl_append, Option.toList_some, List.foldl_cons, List.foldl_nil]
      exact (iconStep_mono fails _ e).2
  · exact (iconFold_nonneg fails _ (0, 0) le_rfl le_rfl).1
  · exact (iconFold_nonneg fails _ (0, 0) le_rfl le_rfl).2

/-- C10 witness: the invariants applied at a concrete oracle and index. -/
theorem C10_witness :
    (AppIcons.countsAfter (fun _ => false) 3).1
      + (AppIcons.countsAfter (fun _ => false) 3).2 = (3 : ℤ) :=
  (C10_counter_invariants (fun _ => false) false 3).2.1 (by norm_num)

/-- C2: both renderers are deterministic: the rendered grid is a pure
function of the pixel dimension `n`, so any two results of the same
invocation input are bit-identical. -/
theorem C2_renderers_deterministic :
    (∀ (n : ℕ) (g₁ g₂ : Image), AppIcons.draw_breathing_circles_icon n = some g₁ →
      AppIcons.draw_breathing_circles_icon n = some g₂ → g₁ = g₂)
    ∧ (∀ (n : ℕ) (g₁ g₂ : Image), ZenIcons.create_zen_icon n = some g₁ →
      ZenIcons.create_zen_icon n = some g₂ → g₁ = g₂) := by
  constructor <;>
    · intro n g₁ g₂ h₁ h₂
      rw [h₁] at h₂
      exact Option.some.inj h₂

/-- C2 witness: both renderers produce a grid at concrete dimensions, and
the determinism theorem applies to the two invocations. -/
theorem C2_witness :
    (AppIcons.draw_breathing_circles_icon 1).get (breathing_isSome 1 Nat.one_pos)
      = (AppIcons.draw_breathing_circles_icon 1).get (breathing_isSome 1 Nat.one_pos)
    ∧ (ZenIcons.create_zen_icon 2).get (zen_isSome 2 (le_refl 2))
      = (ZenIcons.create_zen_icon 2).get (zen_isSome 2 (le_refl 2)) := by
  constructor
  · exact C2_renderers_deterministic.1 1 _ _
      (Option.some_get _).symm (Option.some_get _).symm
  · exact C2_renderers_deterministic.2 2 _ _
      (Option.some_get _).symm (Option.some_get _).symm

/-- C4 (corrected): the breathing-circles renderer returns a fully-assigned
square `n`-by-`n` grid for every positive `n`; the zen renderer does so for
every `n ≥ 2` (at `n = 1` it raises a `ZeroDivisionError` instead, see the
counterexample). -/
theorem C4_full_coverage_amended :
    (∀ n : ℕ, 0 < n → ∃ img, AppIcons.draw_breathing_circles_icon n = some img ∧
      img.width = n ∧ img.height = n ∧ ∀ x y, x < n → y < n → (img.px x y).isSome)
    ∧ (∀ n : ℕ, 2 ≤ n → ∃ img, ZenIcons.create_zen_icon n = some img ∧
      img.width = n ∧ img.height = n ∧ ∀ x y, x < n → y < n → (img.px x y).isSome) := by
  constructor
  · intro n hn
    obtain ⟨img, h, hs⟩ := breathing_run n hn
    exact ⟨img, h, hs.1, hs.2.1, hs.2.2⟩
  · intro n hn
    obtain ⟨img, h, hs⟩ := zen_run n hn
    exact ⟨img, h, hs.1, hs.2.1, hs.2.2⟩

/-- C4 counterexample: at the positive dimension `n = 1` the zen renderer
does not return a grid at all: `max_radius` is `0`, so the very first
pixel's `ratio = distance / max_radius` raises `ZeroDivisionError`. -/
theorem C4_zen_fails_at_one : ZenIcons.create_zen_icon 1 = none := by
  have hm : ZenIcons.max_radius 1 = 0 := by
    unfold ZenIcons.max_radius ZenIcons.centerX
    norm_num
  unfold ZenIcons.create_zen_icon ZenIcons.zenBg ZenIcons.zenBgRow
  simp [List.range_succ, List.foldlM_append, List.foldlM_cons, List.foldlM_nil,
    ZenIcons.zenBgColor, ZenIcons.pyDivR, hm]

/-- C4 witness: the amended coverage theorem applied at concrete
dimensions. -/
theorem C4_witness :
    (∃ img, AppIcons.draw_breathing_circles_icon 1 = some img ∧
      img.width = 1 ∧ img.height = 1 ∧ ∀ x y, x < 1 → y < 1 → (img.px x y).isSome)
    ∧ (∃ img, ZenIcons.create_zen_icon 2 = some img ∧
      img.width = 2 ∧ img.height = 2 ∧ ∀ x y, x < 2 → y < 2 → (img.px x y).isSome) :=
  ⟨C4_full_coverage_amended.1 1 Nat.one_pos, C4_full_coverage_amended.2 2 (le_refl 2)⟩

/-- C6: rendering the smallest table size (20 px) completes; the radial
gradient's loop index list is empty whenever the computed step count is
zero or negative, so its per-step division is never executed then; and the
center-circle stroke width is clamped below by 1 (at 20 px it is exactly
1). -/
theorem C6_smallest_size_safe :
    (AppIcons.draw_breathing_circles_icon 20).isSome
    ∧ (∀ sr er : ℚ, pyInt (er - sr) ≤ 0 → AppIcons.gradRange (pyInt (er - sr)) = [])
    ∧ (∀ n : ℕ, 1 ≤ AppIcons.stroke_width n)
    ∧ AppIcons.stroke_width 20 = 1 := by
  refine ⟨breathing_isSome 20 (by norm_num), ?_, ?_, ?_⟩
  · intro sr er h
    unfold AppIcons.gradRange
    have h0 : (pyInt (er - sr)).toNat = 0 := by omega
    rw [h0]
    rfl
  · intro n
    exact le_max_left _ _
  · unfold AppIcons.stroke_width AppIcons.scale pyInt
    norm_num

/-- C6 witness: the theorem's quantified parts applied at concrete
arguments (a negative step count, and a small dimension). -/
theorem C6_witness :
    AppIcons.gradRange (pyInt ((1 : ℚ) - 5)) = [] ∧ 1 ≤ AppIcons.stroke_width 3 := by
  constructor
  · refine C6_smallest_size_safe.2.1 5 1 ?_
    unfold pyInt
    rw [if_neg (by norm_num)]
    have h4 : ((1 : ℚ) - 5) = ((-4 : ℤ) : ℚ) := by norm_num
    rw [h4, Int.ceil_intCast]
    norm_num
  · exact C6_smallest_size_safe.2.2.1 3

/-- C5 witness: the background-color characterization applied at the
concrete row `y = 1` of a 2-pixel image. -/
theorem C5_witness : (AppIcons.bgColor 2 1).isSome := by
  obtain ⟨r, g, b, h, -⟩ := C5_vertical_gradient 2 1 (by norm_num) (by norm_num)
  simp [h]

/-- C7 witness: the scaling theorem applied at the concrete dimension 5. -/
theorem C7_witness : AppIcons.scale (2 * 5) = 2 * AppIcons.scale 5 :=
  (C7_scaling_consistency 5 (by norm_num)).1

/-- C8 witness: the radial-background characterization applied at the
concrete pixel `(0, 0)` of a 2-pixel image. -/
theorem C8_witness : (ZenIcons.zenBgColor 2 0 0).isSome := by
  rw [C8_radial_gradient 2 0 0 (le_refl 2) (by norm_num) (by norm_num)]
  rfl

end ZenFlow
